import Mathlib

/-!
Verification development for the admin-dashboard front end.

The definitions below are a shallow embedding of the repository's
RBAC / session / token-refresh core:
  * `rolePermissions`, `getPermissions`   — src/hooks/usePermission.ts
  * `ProtectedRoute`                      — src/routes/AppRoutes.tsx
  * `authApi.*`                           — src/api/auth.ts
  * `gatewayOnError`                      — src/api/client.ts response interceptor
  * `recv401`, `refreshDone`, `run`       — AuthContext response interceptor
    (the token-refresh coordinator: module flags `isRefreshing`,
    `refreshSubscribers`, and the 401 handler)

The user identity record is modelled as an abstract `String` payload; the
backend and `JSON.parse` are parameters, since they are external to the
embedded code.
-/

/-! ## Role permission table (src/hooks/usePermission.ts) -/

structure RolePermissions where
  canViewUsers : Bool
  canCreateUsers : Bool
  canUpdateUsers : Bool
  canDeleteUsers : Bool
  canViewMerchants : Bool
  canCreateMerchants : Bool
  canUpdateMerchants : Bool
  canDeleteMerchants : Bool
  canViewAllMerchants : Bool
deriving DecidableEq, Repr

/-- The `super_admin` row of the static `rolePermissions` table. -/
def superAdminPermissions : RolePermissions :=
  { canViewUsers := true, canCreateUsers := true, canUpdateUsers := true
  , canDeleteUsers := true, canViewMerchants := true, canCreateMerchants := true
  , canUpdateMerchants := true, canDeleteMerchants := true, canViewAllMerchants := true }

/-- The `admin` row of the static `rolePermissions` table. -/
def adminPermissions : RolePermissions :=
  { canViewUsers := false, canCreateUsers := false, canUpdateUsers := false
  , canDeleteUsers := false, canViewMerchants := true, canCreateMerchants := true
  , canUpdateMerchants := true, canDeleteMerchants := true, canViewAllMerchants := true }

/-- The `merchant` row of the static `rolePermissions` table. -/
def merchantPermissions : RolePermissions :=
  { canViewUsers := false, canCreateUsers := false, canUpdateUsers := false
  , canDeleteUsers := false, canViewMerchants := true, canCreateMerchants := false
  , canUpdateMerchants := false, canDeleteMerchants := false, canViewAllMerchants := false }

/-- The all-false record returned by `getPermissions` when no user is logged in
(the `if (!user)` branch of the hook). -/
def noPermissions : RolePermissions :=
  { canViewUsers := false, canCreateUsers := false, canUpdateUsers := false
  , canDeleteUsers := false, canViewMerchants := false, canCreateMerchants := false
  , canUpdateMerchants := false, canDeleteMerchants := false, canViewAllMerchants := false }

/-- `rolePermissions[role]` — the static table indexed by the role string;
`none` models a JS `undefined` lookup result for a key not in the table. -/
def rolePermissions (role : String) : Option RolePermissions :=
  if role = "super_admin" then some superAdminPermissions
  else if role = "admin" then some adminPermissions
  else if role = "merchant" then some merchantPermissions
  else none

/-- `getPermissions` from `usePermission`: with no user it returns the
all-false record; otherwise `rolePermissions[user.role] || rolePermissions.merchant`.
The user is modelled by its role string. -/
def getPermissions (user : Option String) : RolePermissions :=
  match user with
  | none => noPermissions
  | some role => (rolePermissions role).getD merchantPermissions

/-! ## Route guard (src/routes/AppRoutes.tsx, `ProtectedRoute`) -/

inductive GuardOutcome where
  | loading
  | redirectToLogin
  | redirectToDashboard
  | allow
deriving DecidableEq, Repr

/-- The context value `isAuthenticated: !!user` published by `AuthProvider`. -/
def ctxIsAuthenticated (user : Option String) : Bool :=
  user.isSome

/-- `ProtectedRoute`: spinner while loading; `Navigate to="/login"` when not
authenticated; `Navigate to="/dashboard"` when an allowlist is given and the
user's role is not in it (`allowedRoles.includes(user.role)`); else children. -/
def ProtectedRoute (isLoading : Bool) (user : Option String)
    (allowedRoles : Option (List String)) : GuardOutcome :=
  if isLoading then GuardOutcome.loading
  else if ctxIsAuthenticated user = false then GuardOutcome.redirectToLogin
  else
    match allowedRoles, user with
    | some roles, some role =>
        if role ∈ roles then GuardOutcome.allow else GuardOutcome.redirectToDashboard
    | _, _ => GuardOutcome.allow

/-! ## Persisted session slots and authApi (src/api/auth.ts) -/

/-- The three localStorage slots the auth layer uses
(`auth_token`, `refresh_token`, `user_data`). -/
structure LocalStore where
  auth_token : Option String
  refresh_token : Option String
  user_data : Option String
deriving DecidableEq, Repr

namespace authApi

/-- `authApi.getStoredUser`: `null` when the key is absent or holds the
literal strings `'undefined'`/`'null'`; otherwise `JSON.parse` inside
`try/catch`, modelled by the `parse` parameter returning `none` on any
string it cannot parse. -/
def getStoredUser (parse : String → Option String) (store : LocalStore) : Option String :=
  match store.user_data with
  | none => none
  | some s => if s = "undefined" ∨ s = "null" then none else parse s

/-- `authApi.clearUser`: removes `user_data` and `refresh_token`
(and nothing else). -/
def clearUser (store : LocalStore) : LocalStore :=
  { store with user_data := none, refresh_token := none }

/-- `authApi.isAuthenticated`: `!!localStorage.getItem('auth_token')`. -/
def isAuthenticated (store : LocalStore) : Bool :=
  store.auth_token.isSome

end authApi

/-- `initializeAuth` in `AuthProvider`: reads the stored user and
`authApi.isAuthenticated()`; publishes the stored user only when both are
present, otherwise the published user stays `null`. Returns the published
user state. -/
def initializeAuth (parse : String → Option String) (store : LocalStore) : Option String :=
  let storedUser := authApi.getStoredUser parse store
  let isAuth := authApi.isAuthenticated store
  if storedUser.isSome ∧ isAuth then storedUser else none

/-- Observable session state: the three persisted slots plus the published
React `user` state. -/
structure SessionState where
  store : LocalStore
  user : Option String
deriving DecidableEq, Repr

/-- The `finally` block of `logout` in `AuthProvider`:
`localStorage.removeItem('auth_token'); authApi.clearUser(); setUser(null)`.
Runs regardless of the network logout call's outcome. -/
def logoutLocal (s : SessionState) : SessionState :=
  { store := authApi.clearUser { s.store with auth_token := none }, user := none }

/-! ## Token refresh coordinator (AuthContext response interceptor)

The interceptor's module state (`isRefreshing`, `refreshSubscribers`), the
localStorage slots and the published user are gathered in `CoordState`.
Each observable effect of the handler is an `Effect`.  The `await` on
`authApi.refreshToken` is the only suspension point, so the handler is
split in two synchronous steps: `recv401` (handler entry up to the await,
or to completion on the non-trigger paths) and `refreshDone` (the
continuation after the refresh call settles). -/

/-- A request config: its id and its `_retry` flag
(`originalRequest._retry`). -/
structure Req where
  id : Nat
  url : String
  retry : Bool
deriving DecidableEq, Repr

/-- Observable effects of the interceptor. -/
inductive Effect where
  /-- `authApi.refreshToken(refreshToken)` network call issued. -/
  | refreshCall
  /-- `subscribeTokenRefresh` pushed this request onto `refreshSubscribers`. -/
  | enqueue (id : Nat)
  /-- `apiClient(originalRequest)` re-issued, carrying this bearer token. -/
  | replay (id : Nat) (token : Option String)
  /-- the original 401 error re-rejected to the caller. -/
  | rejectOriginal (id : Nat)
  /-- the refresh-path error rejected to the caller. -/
  | rejectRefreshError (id : Nat)
  /-- `authApi.clearUser()` invoked. -/
  | clearUserCall
deriving DecidableEq, Repr

/-- Module-level coordinator state plus the stores it reads and writes. -/
structure CoordState where
  isRefreshing : Bool
  refreshSubscribers : List Req
  store : LocalStore
  user : Option String
  pendingTrigger : Option Req
deriving DecidableEq, Repr

/-- Outcome of the awaited `authApi.refreshToken` call (the backend is
external): a payload `{ token, refresh_token?, user }` or a rejection. -/
inductive RefreshOutcome where
  | success (newToken : String) (newRefreshToken : Option String) (userData : String)
  | failure
deriving DecidableEq, Repr

/-- The 401 branch of the AuthContext response interceptor, run
synchronously up to its suspension point:
  * `_retry` already set → reject the original error;
  * `!refreshToken` → `clearUser`, `setUser(null)`, reject;
  * `!isRefreshing` → set `isRefreshing = true`, issue the refresh call and
    suspend (the request, with `_retry` now true, becomes the pending
    trigger);
  * otherwise → `subscribeTokenRefresh` (append to `refreshSubscribers`). -/
def recv401 (s : CoordState) (r : Req) : CoordState × List Effect :=
  if r.retry then (s, [Effect.rejectOriginal r.id])
  else if s.store.refresh_token.isSome = false then
    ({ s with store := authApi.clearUser s.store, user := none },
     [Effect.clearUserCall, Effect.rejectOriginal r.id])
  else if s.isRefreshing = false then
    ({ s with isRefreshing := true, pendingTrigger := some { r with retry := true } },
     [Effect.refreshCall])
  else
    ({ s with refreshSubscribers := s.refreshSubscribers ++ [{ r with retry := true }] },
     [Effect.enqueue r.id])

/-- Continuation of the trigger's handler once the refresh call settles.
On success with a non-empty token: store the new tokens and user, publish
the user, `onTokenRefreshed` replays every subscriber in order with the new
token and empties the array, then the trigger itself is replayed (its token
attached by the request interceptor from the store).  `isRefreshing` is not
reset on this path — faithful to the source, which only resets it in the
`catch`.  On failure (or a falsy token, which throws into the same
`catch`): reset `isRefreshing`, `clearUser`, `setUser(null)`, reject the
refresh error; `refreshSubscribers` is left untouched. -/
def refreshDone (s : CoordState) (out : RefreshOutcome) : CoordState × List Effect :=
  match s.pendingTrigger with
  | none => (s, [])
  | some r =>
    match out with
    | RefreshOutcome.success tok rtok ud =>
      if tok = "" then
        ({ s with isRefreshing := false, store := authApi.clearUser s.store,
                  user := none, pendingTrigger := none },
         [Effect.clearUserCall, Effect.rejectRefreshError r.id])
      else
        let store1 := { s.store with auth_token := some tok }
        let store2 := match rtok with
          | some t => { store1 with refresh_token := some t }
          | none => store1
        let store3 := { store2 with user_data := some ud }
        ({ s with store := store3, user := some ud,
                  refreshSubscribers := [], pendingTrigger := none },
         (s.refreshSubscribers.map fun q => Effect.replay q.id (some tok)) ++
           [Effect.replay r.id store3.auth_token])
    | RefreshOutcome.failure =>
      ({ s with isRefreshing := false, store := authApi.clearUser s.store,
                user := none, pendingTrigger := none },
       [Effect.clearUserCall, Effect.rejectRefreshError r.id])

/-- Events of the event-loop schedule: a 401 handler entry, or the
resolution of the in-flight refresh call. -/
inductive Ev where
  | recv (r : Req)
  | done (out : RefreshOutcome)
deriving DecidableEq, Repr

/-- One scheduled step. -/
def step (s : CoordState) (e : Ev) : CoordState × List Effect :=
  match e with
  | Ev.recv r => recv401 s r
  | Ev.done out => refreshDone s out

/-- Run a schedule, accumulating the emitted actions in order. -/
def run (s : CoordState) : List Ev → CoordState × List Effect
  | [] => (s, [])
  | e :: es =>
    let p := step s e
    let q := run p.1 es
    (q.1, p.2 ++ q.2)

/-- Number of refresh-endpoint calls in a trace. -/
def countRefreshCalls (as : List Effect) : Nat :=
  (as.filter fun a => a = Effect.refreshCall).length

/-- Number of `authApi.clearUser()` invocations in a trace. -/
def countClearUser (as : List Effect) : Nat :=
  (as.filter fun a => a = Effect.clearUserCall).length

/-- The replayed request ids, in replay order. -/
def replayIds (as : List Effect) : List Nat :=
  as.filterMap fun a =>
    match a with
    | Effect.replay i _ => some i
    | _ => none

/-- The replayed requests with the bearer token each replay carries. -/
def replays (as : List Effect) : List (Nat × Option String) :=
  as.filterMap fun a =>
    match a with
    | Effect.replay i t => some (i, t)
    | _ => none

/-- Ids whose continuation was rejected (original error or refresh error). -/
def rejectedIds (as : List Effect) : List Nat :=
  as.filterMap fun a =>
    match a with
    | Effect.rejectOriginal i => some i
    | Effect.rejectRefreshError i => some i
    | _ => none

/-! ## HTTP gateway response interceptor (src/api/client.ts) -/

/-- `pat` starts the character list `s`. -/
def charsHavePre (pat s : List Char) : Bool :=
  match pat, s with
  | [], _ => true
  | _ :: _, [] => false
  | a :: ps, b :: ss => a == b && charsHavePre ps ss

/-- `pat` occurs somewhere in the character list `s`. -/
def charsContain (s pat : List Char) : Bool :=
  match s with
  | [] => pat.isEmpty
  | _ :: rest => charsHavePre pat s || charsContain rest pat

/-- JS `String.prototype.includes` for the url checks:
`pat` occurs as a substring of `s`. -/
def strIncludes (s pat : String) : Bool :=
  charsContain s.toList pat.toList

/-- The `isAuthRequest` predicate of the client interceptor: the url
contains one of the four auth endpoints. -/
def isAuthRequest (url : String) : Bool :=
  strIncludes url "/auth/login" || strIncludes url "/auth/forgot-password" ||
    strIncludes url "/auth/reset-password" || strIncludes url "/auth/register"

/-- Observable side effects of the client interceptor's error handler
(console logging aside).  The handler always re-rejects the error, so the
error then reaches the next registered handler — the coordinator. -/
structure GatewayEffects where
  removedAuthToken : Bool
  removedUserData : Bool
  redirectedToLogin : Bool
deriving DecidableEq, Repr

/-- The client response interceptor's error handler: on a 401 for a
non-auth request it removes `auth_token` and `user_data` and, when the
current location is not the login page, performs a hard navigation to
`/login?reason=unauthorized`; every other error only logs. -/
def gatewayOnError (url : String) (status : Option Nat) (onLoginPage : Bool) :
    GatewayEffects :=
  if status = some 401 ∧ isAuthRequest url = false then
    { removedAuthToken := true, removedUserData := true,
      redirectedToLogin := !onLoginPage }
  else
    { removedAuthToken := false, removedUserData := false, redirectedToLogin := false }

/-- The full response pipeline on a 401: axios runs the client interceptor
first (it was registered at module load, the AuthContext one later), its
storage effects land before the coordinator's handler sees the rejected
error. -/
def pipelineOn401 (url : String) (onLoginPage : Bool) (s : CoordState) (r : Req) :
    GatewayEffects × (CoordState × List Effect) :=
  let eff := gatewayOnError url (some 401) onLoginPage
  let store1 := { s.store with
    auth_token := if eff.removedAuthToken then none else s.store.auth_token,
    user_data := if eff.removedUserData then none else s.store.user_data }
  (eff, recv401 { s with store := store1 } r)

/-! ## Concrete scenario inputs -/

/-- A logged-in idle state: coordinator idle, empty queue, all three
localStorage slots populated. -/
def idleState : CoordState :=
  { isRefreshing := false, refreshSubscribers := []
  , store := { auth_token := some "t0", refresh_token := some "r0", user_data := some "u0" }
  , user := some "u0", pendingTrigger := none }

/-- Same as `idleState` but with no stored refresh token. -/
def noRefreshTokenState : CoordState :=
  { isRefreshing := false, refreshSubscribers := []
  , store := { auth_token := some "t0", refresh_token := none, user_data := some "u0" }
  , user := some "u0", pendingTrigger := none }

def req1 : Req := { id := 1, url := "/users", retry := false }

def req2 : Req := { id := 2, url := "/merchants", retry := false }

def req3 : Req := { id := 3, url := "/dashboard", retry := false }

def loginReq : Req := { id := 4, url := "/auth/login", retry := false }

/-- Three concurrent 401s while idle, then the refresh call succeeds. -/
def c1Events : List Ev :=
  [Ev.recv req1, Ev.recv req2, Ev.recv req3,
   Ev.done (RefreshOutcome.success "t1" (some "r1") "u1")]

/-- A 401, a successful refresh, then a later fresh 401. -/
def c2Events : List Ev :=
  [Ev.recv req1, Ev.done (RefreshOutcome.success "t1" (some "r1") "u1"), Ev.recv req2]

/-- Two concurrent 401s while idle, then the refresh call fails. -/
def c3Events : List Ev :=
  [Ev.recv req1, Ev.recv req2, Ev.done RefreshOutcome.failure]

/-! ## Helper lemmas about `run` -/

theorem run_cons (s : CoordState) (e : Ev) (es : List Ev) :
    run s (e :: es) =
      ((run (step s e).1 es).1, (step s e).2 ++ (run (step s e).1 es).2) := by
  simp [run]

theorem run_append (s : CoordState) (e1 e2 : List Ev) :
    run s (e1 ++ e2) =
      ((run (run s e1).1 e2).1, (run s e1).2 ++ (run (run s e1).1 e2).2) := by
  induction e1 generalizing s with
  | nil => simp [run]
  | cons e es ih => simp [run_cons, ih, List.append_assoc]

/-- A fresh 401 while a refresh is in flight only enqueues. -/
theorem recv401_enqueue (s : CoordState) (r : Req) (hr : r.retry = false)
    (hrt : s.store.refresh_token.isSome = true) (hR : s.isRefreshing = true) :
    recv401 s r =
      ({ s with refreshSubscribers := s.refreshSubscribers ++ [{ r with retry := true }] },
       [Effect.enqueue r.id]) := by
  simp [recv401, hr, hrt, hR]

/-- A burst of fresh 401s while a refresh is in flight appends each request
to the queue, in arrival order, and emits nothing but enqueues. -/
theorem run_enqueues (rest : List Req) (s : CoordState)
    (hR : s.isRefreshing = true) (hrt : s.store.refresh_token.isSome = true)
    (h1 : ∀ r ∈ rest, r.retry = false) :
    run s (rest.map Ev.recv) =
      ({ s with refreshSubscribers :=
          s.refreshSubscribers ++ rest.map (fun r => { r with retry := true }) },
       rest.map (fun r => Effect.enqueue r.id)) := by
  induction rest generalizing s with
  | nil => simp [run]
  | cons r rs ih =>
    have hr : r.retry = false := h1 r (List.mem_cons_self r rs)
    have hrs : ∀ q ∈ rs, q.retry = false := fun q hq => h1 q (List.mem_cons_of_mem r hq)
    have h1' : step s (Ev.recv r) =
        ({ s with refreshSubscribers := s.refreshSubscribers ++ [{ r with retry := true }] },
         [Effect.enqueue r.id]) := recv401_enqueue s r hr hrt hR
    have h2' := ih { s with refreshSubscribers := s.refreshSubscribers ++ [{ r with retry := true }] }
      hR hrt hrs
    rw [List.map_cons, run_cons, h1']
    dsimp only
    rw [h2']
    simp [List.append_assoc]

/-- The emitted effects of a successful refresh with a non-empty token:
every subscriber is replayed in order with the new token, then the trigger
is replayed (its token read back from the store). -/
theorem refreshDone_success_effects (s : CoordState) (r : Req) (tok : String)
    (rtok : Option String) (ud : String)
    (hpt : s.pendingTrigger = some r) (htok : ¬ tok = "") :
    (refreshDone s (RefreshOutcome.success tok rtok ud)).2 =
      (s.refreshSubscribers.map fun q => Effect.replay q.id (some tok)) ++
        [Effect.replay r.id (some tok)] := by
  cases rtok <;> simp [refreshDone, hpt, htok]

theorem countRefreshCalls_append (a b : List Effect) :
    countRefreshCalls (a ++ b) = countRefreshCalls a + countRefreshCalls b := by
  simp [countRefreshCalls]

theorem countRefreshCalls_map_enqueue (l : List Req) :
    countRefreshCalls (l.map fun r => Effect.enqueue r.id) = 0 := by
  induction l with
  | nil => rfl
  | cons r rs ih => exact ih

theorem countRefreshCalls_map_replay (l : List Req) (tok : String) :
    countRefreshCalls (l.map fun q => Effect.replay q.id (some tok)) = 0 := by
  induction l with
  | nil => rfl
  | cons r rs ih => exact ih

theorem replays_append (a b : List Effect) :
    replays (a ++ b) = replays a ++ replays b := by
  simp [replays]

theorem replays_map_enqueue (l : List Req) :
    replays (l.map fun r => Effect.enqueue r.id) = [] := by
  induction l with
  | nil => rfl
  | cons r rs ih => exact ih

theorem replays_map_replay (l : List Req) (tok : String) :
    replays (l.map fun q => Effect.replay q.id (some tok)) =
      l.map fun q => (q.id, some tok) := by
  induction l with
  | nil => rfl
  | cons r rs ih => exact congrArg (List.cons (r.id, some tok)) ih

/-! ## Claims C5, C6: permission table and route guard -/

/-- C5 (counterexample): with no user, `getPermissions` returns the
all-false record, which is not the merchant permission set — the claimed
merchant fallback for an absent role fails. -/
theorem C5_counterexample :
    getPermissions none = noPermissions ∧ getPermissions none ≠ merchantPermissions := by
  exact ⟨rfl, by decide⟩

/-- C5 (amended): `getPermissions` is a total table lookup; each of the
three known roles maps to its nine-flag table row, any unrecognized role
string falls back to the merchant row, and an absent user yields the
all-false record (not the merchant row). -/
theorem C5_permission_table (role : String)
    (h1 : role ≠ "super_admin") (h2 : role ≠ "admin") (h3 : role ≠ "merchant") :
    getPermissions (some "super_admin") = superAdminPermissions ∧
    getPermissions (some "admin") = adminPermissions ∧
    getPermissions (some "merchant") = merchantPermissions ∧
    getPermissions (some role) = merchantPermissions ∧
    getPermissions none = noPermissions := by
  refine ⟨by decide, by decide, by decide, ?_, rfl⟩
  simp [getPermissions, rolePermissions, h1, h2, h3]

/-- C5 witness: an arbitrary unrecognized role string gets the merchant
permission set. -/
theorem C5_witness : getPermissions (some "manager") = merchantPermissions :=
  (C5_permission_table "manager" (by decide) (by decide) (by decide)).2.2.2.1

/-- C6: the route guard denies `merchant` against the
`[super_admin, admin]` allowlist (redirect to the default view), allows
`admin` against the same allowlist, redirects to login whenever there is no
session regardless of the allowlist, and in general the decision for an
authenticated session with an allowlist is exact set membership of the role
in the list. -/
theorem C6_route_guard :
    ProtectedRoute false (some "merchant") (some ["super_admin", "admin"]) =
      GuardOutcome.redirectToDashboard ∧
    ProtectedRoute false (some "admin") (some ["super_admin", "admin"]) =
      GuardOutcome.allow ∧
    (∀ ar : Option (List String), ProtectedRoute false none ar = GuardOutcome.redirectToLogin) ∧
    (∀ (role : String) (roles : List String),
      ProtectedRoute false (some role) (some roles) =
        if role ∈ roles then GuardOutcome.allow else GuardOutcome.redirectToDashboard) := by
  refine ⟨by decide, by decide, ?_, ?_⟩
  · intro ar; cases ar <;> rfl
  · intro role roles
    by_cases h : role ∈ roles <;> simp [ProtectedRoute, ctxIsAuthenticated, h]

/-! ## Claims C8, C9, C10: session store -/

/-- C8: the published `isAuthenticated` is `!!user` — true exactly when an
identity is published — and `initializeAuth` publishes nothing when the
stored identity is absent or unparseable, even if an access token is
persisted. -/
theorem C8_auth_iff_identity :
    (∀ u : Option String, ctxIsAuthenticated u = true ↔ u.isSome = true) ∧
    (∀ (parse : String → Option String) (store : LocalStore),
      authApi.getStoredUser parse store = none →
      ctxIsAuthenticated (initializeAuth parse store) = false) := by
  constructor
  · intro u; exact Iff.rfl
  · intro parse store h
    simp [initializeAuth, h, ctxIsAuthenticated]

/-- C8 witness: a persisted access token with no persisted identity leaves
the session unauthenticated after initialization. -/
theorem C8_witness :
    ctxIsAuthenticated (initializeAuth (fun _ => none)
      { auth_token := some "tok", refresh_token := none, user_data := none }) = false :=
  C8_auth_iff_identity.2 (fun _ => none)
    { auth_token := some "tok", refresh_token := none, user_data := none } rfl

/-- C9: the local logout/clear is idempotent: a second call yields the same
observable state, that state has all three persisted slots empty and no
published session, and `authApi.clearUser` itself is idempotent.  Both
operations are total functions, so a repeated call cannot fail. -/
theorem C9_clear_idempotent (s : SessionState) :
    logoutLocal (logoutLocal s) = logoutLocal s ∧
    (logoutLocal s).store.auth_token = none ∧
    (logoutLocal s).store.refresh_token = none ∧
    (logoutLocal s).store.user_data = none ∧
    ctxIsAuthenticated (logoutLocal s).user = false ∧
    (∀ st : LocalStore, authApi.clearUser (authApi.clearUser st) = authApi.clearUser st) :=
  ⟨rfl, rfl, rfl, rfl, rfl, fun _ => rfl⟩

/-- C10: `getStoredUser` returns `null` (never throws — it is a total
function) for every corrupted persisted identity: key absent, the literal
strings `'undefined'` or `'null'`, or any string `JSON.parse` rejects. -/
theorem C10_getStoredUser_safe (parse : String → Option String) (store : LocalStore)
    (h : store.user_data = none ∨ store.user_data = some "undefined" ∨
         store.user_data = some "null" ∨
         ∃ s, store.user_data = some s ∧ parse s = none) :
    authApi.getStoredUser parse store = none := by
  rcases h with h | h | h | ⟨s, hs, hp⟩
  · simp [authApi.getStoredUser, h]
  · simp [authApi.getStoredUser, h]
  · simp [authApi.getStoredUser, h]
  · simp only [authApi.getStoredUser, hs]
    split
    · rfl
    · exact hp

/-- C10 witness: a stored string that the JSON parser rejects yields `null`. -/
theorem C10_witness :
    authApi.getStoredUser (fun _ => none)
      { auth_token := none, refresh_token := none, user_data := some "not json" } = none :=
  C10_getStoredUser_safe (fun _ => none)
    { auth_token := none, refresh_token := none, user_data := some "not json" }
    (Or.inr (Or.inr (Or.inr ⟨"not json", rfl, rfl⟩)))

/-! ## Claims C1, C2, C3, C7: the token refresh coordinator -/

/-- C1 (counterexample): three concurrent 401s while idle, refresh
succeeds.  Exactly one refresh call is issued, but the replay order is
`[2, 3, 1]` — the queued requests first, the triggering request last — not
`[1, 2, 3]` with the trigger first as the claim states. -/
theorem C1_counterexample :
    (run idleState c1Events).2 =
      [Effect.refreshCall, Effect.enqueue 2, Effect.enqueue 3,
       Effect.replay 2 (some "t1"), Effect.replay 3 (some "t1"),
       Effect.replay 1 (some "t1")] ∧
    replayIds (run idleState c1Events).2 ≠ [1, 2, 3] := by
  exact ⟨by decide, by decide⟩

/-- All enqueued 401s during an in-flight refresh, then a successful
refresh: the emitted trace is the enqueues followed by the subscriber
replays (old queue then the burst, in order) and finally the trigger's
replay. -/
theorem run_refresh_success (rest : List Req) (s : CoordState) (rt : Req)
    (tok : String) (rtok : Option String) (ud : String)
    (hR : s.isRefreshing = true) (hrt : s.store.refresh_token.isSome = true)
    (hpt : s.pendingTrigger = some rt)
    (hrest : ∀ r ∈ rest, r.retry = false) (htok : ¬ tok = "") :
    (run s (rest.map Ev.recv ++ [Ev.done (RefreshOutcome.success tok rtok ud)])).2 =
      (rest.map fun r => Effect.enqueue r.id) ++
        (((s.refreshSubscribers ++ rest.map fun r : Req => { r with retry := true }).map
            fun q : Req => Effect.replay q.id (some tok)) ++
          [Effect.replay rt.id (some tok)]) := by
  induction rest generalizing s with
  | nil =>
    have h3 := refreshDone_success_effects s rt tok rtok ud hpt htok
    simp only [List.map_nil, List.nil_append, List.append_nil]
    rw [run_cons]
    dsimp only [step]
    rw [show (run (refreshDone s (RefreshOutcome.success tok rtok ud)).1 []).2 = [] from rfl]
    rw [List.append_nil, h3]
  | cons r rs ih =>
    have hr : r.retry = false := hrest r (List.mem_cons_self r rs)
    have hrs : ∀ q ∈ rs, q.retry = false := fun q hq => hrest q (List.mem_cons_of_mem r hq)
    have h1 : step s (Ev.recv r) =
        ({ s with refreshSubscribers := s.refreshSubscribers ++ [{ r with retry := true }] },
         [Effect.enqueue r.id]) := recv401_enqueue s r hr hrt hR
    rw [List.map_cons, List.cons_append, run_cons, h1]
    dsimp only
    rw [ih { s with refreshSubscribers := s.refreshSubscribers ++ [{ r with retry := true }] }
        hR hrt hpt hrs]
    simp [List.append_assoc]

/-- C1 (amended): from an idle coordinator with a stored refresh token and
an empty queue, a triggering 401 followed by any burst of further fresh
401s issues exactly one refresh call; on success every request is replayed
once with the new token — the queued requests in their enqueue order, and
the triggering request last, after all of them (not first). -/
theorem C1_single_flight (s : CoordState) (trigger : Req) (rest : List Req)
    (tok : String) (rtok : Option String) (ud : String)
    (hIdle : s.isRefreshing = false) (hq : s.refreshSubscribers = [])
    (hrt : s.store.refresh_token.isSome = true)
    (htr : trigger.retry = false) (hrest : ∀ r ∈ rest, r.retry = false)
    (htok : ¬ tok = "") :
    countRefreshCalls (run s (Ev.recv trigger :: (rest.map Ev.recv ++
        [Ev.done (RefreshOutcome.success tok rtok ud)]))).2 = 1 ∧
    replays (run s (Ev.recv trigger :: (rest.map Ev.recv ++
        [Ev.done (RefreshOutcome.success tok rtok ud)]))).2 =
      rest.map (fun r => (r.id, some tok)) ++ [(trigger.id, some tok)] := by
  have h1 : step s (Ev.recv trigger) =
      ({ s with isRefreshing := true, pendingTrigger := some { trigger with retry := true } },
       [Effect.refreshCall]) := by
    simp [step, recv401, htr, hrt, hIdle]
  have h2 := run_refresh_success rest
    { s with isRefreshing := true, pendingTrigger := some { trigger with retry := true } }
    { trigger with retry := true } tok rtok ud rfl hrt rfl hrest htok
  rw [hq] at h1 h2
  have htrace : (run s (Ev.recv trigger :: (rest.map Ev.recv ++
      [Ev.done (RefreshOutcome.success tok rtok ud)]))).2 =
      [Effect.refreshCall] ++
        ((rest.map fun r => Effect.enqueue r.id) ++
          ((([] ++ rest.map fun r : Req => { r with retry := true }).map
              fun q : Req => Effect.replay q.id (some tok)) ++
            [Effect.replay trigger.id (some tok)])) := by
    rw [run_cons, h1]
    dsimp only
    rw [h2]
  rw [htrace]
  simp only [List.nil_append]
  constructor
  · rw [countRefreshCalls_append, countRefreshCalls_append, countRefreshCalls_append,
        countRefreshCalls_map_enqueue, countRefreshCalls_map_replay]
    rfl
  · rw [replays_append, replays_append, replays_append,
        replays_map_enqueue, replays_map_replay]
    simp [List.map_map]
    rfl

/-- C1 witness: the three-request scenario of the spec, instantiating the
amended claim. -/
theorem C1_witness :
    countRefreshCalls (run idleState (Ev.recv req1 :: ([req2, req3].map Ev.recv ++
        [Ev.done (RefreshOutcome.success "t1" (some "r1") "u1")]))).2 = 1 ∧
    replays (run idleState (Ev.recv req1 :: ([req2, req3].map Ev.recv ++
        [Ev.done (RefreshOutcome.success "t1" (some "r1") "u1")]))).2 =
      [req2, req3].map (fun r => (r.id, some "t1")) ++ [(req1.id, some "t1")] :=
  C1_single_flight idleState req1 [req2, req3] "t1" (some "r1") "u1"
    rfl rfl rfl rfl (by decide) (by decide)

/-- C2 (code behavior at the failing input): after a successful refresh the
coordinator does NOT return to idle — `isRefreshing` is still `true` — so a
later fresh 401 with a refresh token available is enqueued onto a queue no
refresh will ever drain, instead of starting a new refresh cycle: the whole
trace still contains exactly one refresh call. -/
theorem C2_stays_refreshing_after_success :
    (run idleState c2Events).1.isRefreshing = true ∧
    (run idleState c2Events).1.refreshSubscribers.map Req.id = [2] ∧
    countRefreshCalls (run idleState c2Events).2 = 1 ∧
    replayIds (run idleState c2Events).2 = [1] := by
  exact ⟨by decide, by decide, by decide, by decide⟩

/-- C3 (code behavior at the failing input): two concurrent 401s, then the
refresh call fails.  `clearUser` runs exactly once and the triggering
request is rejected, but the queued request (id 2) is neither rejected nor
replayed — it stays in `refreshSubscribers` forever — contradicting the
claim that every queued continuation is rejected. -/
theorem C3_queued_never_rejected :
    countClearUser (run idleState c3Events).2 = 1 ∧
    rejectedIds (run idleState c3Events).2 = [1] ∧
    replayIds (run idleState c3Events).2 = [] ∧
    (run idleState c3Events).1.refreshSubscribers.map Req.id = [2] ∧
    (run idleState c3Events).1.isRefreshing = false ∧
    (run idleState c3Events).1.store.refresh_token = none := by
  exact ⟨by decide, by decide, by decide, by decide, by decide, by decide⟩

/-- C7: a request whose `_retry` flag is already set and which receives
another 401 is rejected to its caller immediately: the coordinator state is
untouched and no refresh call (and no enqueue) is emitted. -/
theorem C7_no_second_refresh (s : CoordState) (r : Req) (h : r.retry = true) :
    recv401 s r = (s, [Effect.rejectOriginal r.id]) := by
  simp [recv401, h]

/-- C7 witness: a concrete already-retried request is rejected from the
idle state with no state change. -/
theorem C7_witness :
    recv401 idleState { id := 1, url := "/users", retry := true } =
      (idleState, [Effect.rejectOriginal 1]) :=
  C7_no_second_refresh idleState { id := 1, url := "/users", retry := true } rfl

/-! ## Claim C4: gateway handling of 401s -/

/-- C4 (counterexample): a 401 on the non-auth endpoint `/users` makes the
gateway interceptor remove the access token and the stored identity and
start a hard navigation to the login view, and only afterwards does the
coordinator's handler receive the error (and still issue its refresh call):
the refresh-and-retry is not attempted before the session clear and
redirect, as the claim states. -/
theorem C4_counterexample :
    (pipelineOn401 "/users" false idleState req1).1 =
      { removedAuthToken := true, removedUserData := true, redirectedToLogin := true } ∧
    (pipelineOn401 "/users" false idleState req1).2.2 = [Effect.refreshCall] ∧
    (pipelineOn401 "/auth/login" false noRefreshTokenState loginReq).1 =
      { removedAuthToken := false, removedUserData := false, redirectedToLogin := false } ∧
    (pipelineOn401 "/auth/login" false noRefreshTokenState loginReq).2.2 =
      [Effect.clearUserCall, Effect.rejectOriginal 4] := by
  exact ⟨by decide, by decide, by decide, by decide⟩

/-- C4 (amended): on a 401, the gateway interceptor runs first; for a
non-auth request it removes the persisted access token and identity and
(when not already on the login view) navigates to login, and only then is
the 401 handed to the coordinator, which sees the already-mutated store;
for an auth-endpoint request (login, register, forgot-password,
reset-password) the gateway performs no clear and no navigation, but the
401 is still processed by the coordinator rather than surfaced untouched. -/
theorem C4_gateway_before_coordinator (url : String) (onLoginPage : Bool)
    (s : CoordState) (r : Req) :
    (pipelineOn401 url onLoginPage s r).1 =
      (if isAuthRequest url then
        { removedAuthToken := false, removedUserData := false, redirectedToLogin := false }
       else
        { removedAuthToken := true, removedUserData := true,
          redirectedToLogin := !onLoginPage }) ∧
    (pipelineOn401 url onLoginPage s r).2 =
      recv401 { s with store :=
        (if isAuthRequest url then s.store
         else { s.store with auth_token := none, user_data := none }) } r := by
  cases h : isAuthRequest url <;>
    simp [pipelineOn401, gatewayOnError, h]
